import Mathlib

/-!
Shallow embedding of `src/utils.rs` from the ethers-reth repository: the
conversion layer between ethers-rs ("external") and reth ("internal")
Ethereum RPC types.

Modelling conventions:
- Addresses (20 bytes), hashes (32 bytes), blooms and byte payloads are
  modelled as their byte lists (`Bytes`); every conversion of them in the
  source (`from_slice`, `to_fixed_bytes().into()`, `as_bytes`) is a verbatim
  byte copy, i.e. the identity on the byte list.
- Fixed-width unsigned quantities (U8/U64/U128/U256 on either side) are
  modelled as `Nat`; a width-w value is understood to satisfy `< 2 ^ w`.
- A Rust computation that can panic (`unwrap`, `todo!()`, out-of-bounds
  indexing, the overflow check inside the uint crate's `as_u64`) is modelled
  in the `Option` monad, with `none` for the panic; a Rust `Result` is
  modelled with `Except`.
-/

namespace EthersReth

/-- A byte string: the bytes of an address, hash, bloom or data payload. -/
abbrev Bytes := List Nat

/-- The uint crate's `as_u64` on an ethers 256-bit quantity: returns the value
when it fits in 64 bits and panics (here: `none`) otherwise. -/
def ethersU256_as_u64 (n : Nat) : Option Nat :=
  if n < 2 ^ 64 then some n else none

/-- Value-level model of `self.to_le_bytes().into()` reinterpreting a 256-bit
quantity as a 64-bit one (`impl ToEthers<EthersU64> for U256`, and the
`block_number` / `transaction_index` conversions in the log converter):
little-endian reinterpretation keeps the low 8 bytes of the value. -/
def u256_le_into_u64 (n : Nat) : Nat := n % 2 ^ 64

/-- Value-level model of `impl ToEthers<EthersU256> for U128`
(`self.to_le_bytes().into()`): widening a 128-bit value to 256 bits is
lossless. -/
def u128_le_into_u256 (n : Nat) : Nat := n

/-- Value-level model of `impl ToEthers<EthersU256> for U64`
(`self.as_u64().into()`): widening a 64-bit value to 256 bits is lossless. -/
def u64_into_u256 (n : Nat) : Nat := n

/-- `convert_Ethers_U256_to_Reth_U64` from the source:
`let u256 = u256.as_u64(); u256.into()`. The `as_u64` call panics when the
value exceeds `u64::MAX`; the final `into` is the lossless `u64 -> U64`. -/
def convert_Ethers_U256_to_Reth_U64 (u256 : Nat) : Option Nat :=
  (ethersU256_as_u64 u256).map fun v => v

/-- `convert_Reth_U256_to_Ethers_U64` from the source: a value-preserving
copy reth `U256 -> EthersU256`, then `as_u64` (panics above `u64::MAX`),
then the lossless `u64 -> EthersU64`. -/
def convert_Reth_U256_to_Ethers_U64 (u256 : Nat) : Option Nat :=
  (ethersU256_as_u64 u256).map fun v => v

/-- `convert_Reth_U64_to_Ethers_U256` from the source:
`let u64t = u64.as_u64(); u64t.into()` — `as_u64` on a 64-bit quantity always
succeeds and the widening `into` preserves the value. -/
def convert_Reth_U64_to_Ethers_U256 (u64v : Nat) : Nat := u64v

/-- The `ValueOrArray` shape shared by the ethers and reth filter types. -/
inductive ValueOrArray (α : Type) where
  | Value (v : α)
  | Array (vs : List α)
  deriving DecidableEq

/-- An ethers topic matcher: a single optional 32-byte value or an array of
optional values (`None` = wildcard). -/
abbrev EthersTopic := ValueOrArray (Option Bytes)

/-- A reth topic matcher, same shape as the ethers one. -/
abbrev Topic := ValueOrArray (Option Bytes)

/-- `option_convert_valueORarray` from the source, with the element
conversion `U: From<T>` passed explicitly as `f`. -/
def option_convert_valueORarray {T U : Type} (f : T → U) :
    ValueOrArray (Option T) → ValueOrArray (Option U)
  | .Value (some addr) => .Value (some (f addr))
  | .Value none => .Value none
  | .Array addrs => .Array (addrs.map fun a => a.map f)

/-- `convert_valueORarray` from the source, with the element conversion
`U: From<T>` passed explicitly as `f`. -/
def convert_valueORarray {T U : Type} (f : T → U) : ValueOrArray T → ValueOrArray U
  | .Value addr => .Value (f addr)
  | .Array addrs => .Array (addrs.map f)

/-- Rust `Vec` index assignment `v[i] = x`: an out-of-bounds index panics
(here: `none`). -/
def vecIndexSet {α : Type} (v : List α) (i : Nat) (x : α) : Option (List α) :=
  if i < v.length then some (v.set i x) else none

/-- The loop of `convert_topics`:
`for (i, topic) in topics.into_iter().enumerate() { new_topics[i] = ... }`,
starting from accumulator `acc` at index `i`. Each iteration converts the
topic via `option_convert_valueORarray` (the `H256 -> H256` element
conversion is a byte copy, i.e. `id`) and writes it at position `i`. -/
def convertTopicsLoop (acc : List (Option Topic)) (i : Nat) :
    List (Option EthersTopic) → Option (List (Option Topic))
  | [] => some acc
  | t :: ts => do
    let acc' ← vecIndexSet acc i (t.map (option_convert_valueORarray id))
    convertTopicsLoop acc' (i + 1) ts

/-- `convert_topics` from the source: starts from `Vec::new()` (the empty
vector), runs the indexed-write loop, then `try_into().unwrap()` — the
`unwrap` panics unless the resulting vector has exactly 4 elements. -/
def convert_topics (topics : List (Option EthersTopic)) : Option (List (Option Topic)) := do
  let new_topics ← convertTopicsLoop [] 0 topics
  if new_topics.length = 4 then some new_topics else none

/-- The ethers `BlockNumber`: a named tag or an exact 64-bit number. -/
inductive EthersBlockNumber where
  | Latest
  | Finalized
  | Safe
  | Earliest
  | Pending
  | Number (n : Nat)
  deriving DecidableEq

/-- The reth `BlockNumberOrTag`, same alternatives as the ethers side. -/
inductive BlockNumberOrTag where
  | Latest
  | Finalized
  | Safe
  | Earliest
  | Pending
  | Number (n : Nat)
  deriving DecidableEq

/-- `BlockNumber::as_number` from ethers: `Some` exactly on the
`Number` variant. -/
def EthersBlockNumber.as_number : EthersBlockNumber → Option Nat
  | .Number n => some n
  | _ => none

/-- Rust `Result::ok()`: discards the error, keeping only a success value. -/
def exceptOk {ε α : Type} : Except ε α → Option α
  | .ok a => some a
  | .error _ => none

/-- `convert_block_number_to_block_number_or_tag` from the source: returns
`Result<BlockNumberOrTag>` (error type `eyre::Report`, modelled as `Unit`);
every variant of the input maps to `Ok`. -/
def convert_block_number_to_block_number_or_tag (block : EthersBlockNumber) :
    Except Unit BlockNumberOrTag :=
  match block with
  | .Latest => .ok .Latest
  | .Finalized => .ok .Finalized
  | .Safe => .ok .Safe
  | .Earliest => .ok .Earliest
  | .Pending => .ok .Pending
  | .Number n => .ok (.Number n)

/-- The ethers filter block selector. -/
inductive EthersFilterBlockOption where
  | AtBlockHash (h : Bytes)
  | Range (from_block : Option EthersBlockNumber) (to_block : Option EthersBlockNumber)

/-- The reth filter block selector. -/
inductive FilterBlockOption where
  | AtBlockHash (h : Bytes)
  | Range (from_block : Option BlockNumberOrTag) (to_block : Option BlockNumberOrTag)

/-- The ethers `Filter`: block selector, optional address matcher, and the
four-position topics array (modelled as a list; the source type is
`[Option<Topic>; 4]`). -/
structure EthersFilter where
  block_option : EthersFilterBlockOption
  address : Option (ValueOrArray Bytes)
  topics : List (Option EthersTopic)

/-- The reth `Filter`, same shape on the reth types. -/
structure Filter where
  block_option : FilterBlockOption
  address : Option (ValueOrArray Bytes)
  topics : List (Option Topic)

/-- `ethers_filter_to_reth_filter` from the source. The `Range` arm unwraps
both optional bounds (panicking on an absent bound) and applies `.ok()` to
the conversion result; the topics field goes through `convert_topics`. The
address element conversion (`EthersAddress -> reth Address`) is a byte
copy, i.e. `id`. Struct-literal fields are evaluated in source order:
`block_option`, then `address`, then `topics`. -/
def ethers_filter_to_reth_filter (filter : EthersFilter) : Option Filter := do
  let block_option ← (match filter.block_option with
    | .AtBlockHash x => some (FilterBlockOption.AtBlockHash x)
    | .Range from_block to_block => do
        let fb ← from_block
        let tb ← to_block
        some (FilterBlockOption.Range
          (exceptOk (convert_block_number_to_block_number_or_tag fb))
          (exceptOk (convert_block_number_to_block_number_or_tag tb))))
  let topics ← convert_topics filter.topics
  some { block_option := block_option,
         address := filter.address.map (convert_valueORarray id),
         topics := topics }

/-- The reth `RpcBlockHash` produced by `BlockHash::into()`: the hash bytes
plus a `require_canonical` flag that the `From<BlockHash>` conversion leaves
absent. -/
structure RpcBlockHash where
  block_hash : Bytes
  require_canonical : Option Bool
  deriving DecidableEq

/-- The ethers `BlockId`: an exact hash or a `BlockNumber`. -/
inductive EthersBlockId where
  | Hash (hash : Bytes)
  | Number (number : EthersBlockNumber)

/-- The reth `BlockId`. -/
inductive BlockId where
  | Hash (hash : RpcBlockHash)
  | Number (number : BlockNumberOrTag)
  deriving DecidableEq

/-- `ethers_block_id_to_reth_block_id` from the source. The `Hash` arm is a
byte copy (`BlockHash::from_slice(hash.as_bytes()).into()`); the `Number`
arm is `number.as_number().unwrap().as_u64()` — the `unwrap` panics whenever
the `BlockNumber` is a named tag, and `as_u64` preserves the numeric
value. -/
def ethers_block_id_to_reth_block_id (block_id : EthersBlockId) : Option BlockId :=
  match block_id with
  | .Hash hash => some (.Hash { block_hash := hash, require_canonical := none })
  | .Number number => number.as_number.map fun n => .Number (.Number n)

/-- A reth RPC `Log`. Quantities (`block_number`, `transaction_index`,
`log_index`) are 256-bit on this side. -/
structure Log where
  address : Bytes
  topics : List Bytes
  data : Bytes
  block_hash : Option Bytes
  block_number : Option Nat
  transaction_hash : Option Bytes
  transaction_index : Option Nat
  log_index : Option Nat
  removed : Bool
  deriving DecidableEq

/-- An ethers `Log`. `block_number` and `transaction_index` are 64-bit here;
`log_type` is an optional string (modelled as its bytes); `removed` is
optional. -/
structure EthersLog where
  address : Bytes
  topics : List Bytes
  data : Bytes
  block_hash : Option Bytes
  block_number : Option Nat
  transaction_hash : Option Bytes
  transaction_index : Option Nat
  log_index : Option Nat
  transaction_log_index : Option Nat
  log_type : Option Bytes
  removed : Option Bool
  deriving DecidableEq

/-- Rust `todo!()`: terminates the process; modelled as no result. -/
def todoPanic {α : Type} : Option α := none

/-- `reth_rpc_log_to_ethers` from the source; `impl ToEthers<EthersLog> for
Log` (`into_ethers`) is the identical field-for-field code. The
`transaction_log_index` and `log_type` fields are `todo!()`, so building the
struct panics; the remaining fields are byte copies, `map`s and the
little-endian 256-to-64-bit reinterpretations. -/
def reth_rpc_log_to_ethers (log : Log) : Option EthersLog := do
  let transaction_log_index ← (todoPanic : Option (Option Nat))
  let log_type ← (todoPanic : Option (Option Bytes))
  some { address := log.address,
         topics := log.topics.map fun topic => topic,
         data := log.data,
         block_hash := log.block_hash,
         block_number := log.block_number.map u256_le_into_u64,
         transaction_hash := log.transaction_hash,
         transaction_index := log.transaction_index.map u256_le_into_u64,
         log_index := log.log_index,
         transaction_log_index := transaction_log_index,
         log_type := log_type,
         removed := some log.removed }

/-- A reth `AccessListItem`: address plus ordered storage keys. -/
structure AccessListItem where
  address : Bytes
  storage_keys : List Bytes
  deriving DecidableEq

/-- An ethers `AccessListItem`. -/
structure EthersAccessListItem where
  address : Bytes
  storage_keys : List Bytes
  deriving DecidableEq

/-- The ethers `AccessList` tuple struct: a list of items. -/
abbrev EthersAccessList := List EthersAccessListItem

/-- `opt_reth_access_list_to_ethers_access_list` from the source:
`unwrap_or_else(Vec::new)` turns an absent list into the empty one, then each
item's address and storage keys are byte-copied
(`EthersAddress::from_slice`, `EthersH256::from_slice`). -/
def opt_reth_access_list_to_ethers_access_list
    (opt_access_list : Option (List AccessListItem)) : EthersAccessList :=
  let access_list := opt_access_list.getD []
  access_list.map fun item =>
    { address := item.address,
      storage_keys := item.storage_keys.map fun key => key }

/-- A reth RPC `Signature`: the r, s, v components as 256-bit quantities. -/
structure Signature where
  r : Nat
  s : Nat
  v : Nat
  deriving DecidableEq

/-- A reth RPC `Transaction` (the fields the converter reads). -/
structure Transaction where
  hash : Bytes
  nonce : Nat
  block_hash : Option Bytes
  block_number : Option Nat
  transaction_index : Option Nat
  «from» : Bytes
  «to» : Option Bytes
  value : Nat
  gas_price : Option Nat
  gas : Nat
  input : Bytes
  signature : Option Signature
  transaction_type : Option Nat
  access_list : Option (List AccessListItem)
  max_priority_fee_per_gas : Option Nat
  max_fee_per_gas : Option Nat
  chain_id : Option Nat

/-- An ethers `Transaction` (the fields the converter writes; the rest of
the struct comes from `..Default::default()`). -/
structure EthersTransaction where
  hash : Bytes
  nonce : Nat
  block_hash : Option Bytes
  block_number : Option Nat
  transaction_index : Option Nat
  «from» : Bytes
  «to» : Option Bytes
  value : Nat
  gas_price : Option Nat
  gas : Nat
  input : Bytes
  v : Nat
  r : Nat
  s : Nat
  transaction_type : Option Nat
  access_list : Option EthersAccessList
  max_priority_fee_per_gas : Option Nat
  max_fee_per_gas : Option Nat
  chain_id : Option Nat

/-- `reth_rpc_transaction_to_ethers` from the source. `v`, `r`, `s` come
from `signature.map_or(0.into(), ...)`: zero when the record carries no
signature, the converted components otherwise (`v` through the 256-to-64-bit
`into_ethers`, `r` and `s` through the value-preserving `into`). The access
list is always wrapped in `Some(opt_reth_access_list_to_ethers_access_list(...))`.
No field can panic. -/
def reth_rpc_transaction_to_ethers (reth_tx : Transaction) : EthersTransaction :=
  { hash := reth_tx.hash,
    nonce := reth_tx.nonce,
    block_hash := reth_tx.block_hash,
    block_number := reth_tx.block_number.map u256_le_into_u64,
    transaction_index := reth_tx.transaction_index.map u256_le_into_u64,
    «from» := reth_tx.«from»,
    «to» := reth_tx.«to»,
    value := reth_tx.value,
    gas_price := reth_tx.gas_price.map u128_le_into_u256,
    gas := reth_tx.gas,
    input := reth_tx.input,
    v := reth_tx.signature.elim 0 fun sig => u256_le_into_u64 sig.v,
    r := reth_tx.signature.elim 0 fun sig => sig.r,
    s := reth_tx.signature.elim 0 fun sig => sig.s,
    transaction_type := reth_tx.transaction_type,
    access_list := some (opt_reth_access_list_to_ethers_access_list reth_tx.access_list),
    max_priority_fee_per_gas := reth_tx.max_priority_fee_per_gas.map u128_le_into_u256,
    max_fee_per_gas := reth_tx.max_fee_per_gas.map u128_le_into_u256,
    chain_id := reth_tx.chain_id.map u64_into_u256 }

/-- A reth RPC `TransactionReceipt` (the fields the converter reads). -/
structure TransactionReceipt where
  transaction_hash : Option Bytes
  transaction_index : Option Nat
  block_hash : Option Bytes
  block_number : Option Nat
  «from» : Bytes
  «to» : Option Bytes
  cumulative_gas_used : Nat
  gas_used : Option Nat
  contract_address : Option Bytes
  logs : List Log
  status_code : Option Nat
  state_root : Option Bytes
  logs_bloom : Bytes
  transaction_type : Nat
  effective_gas_price : Nat

/-- An ethers `TransactionReceipt`. -/
structure EthersTransactionReceipt where
  transaction_hash : Bytes
  transaction_index : Nat
  block_hash : Option Bytes
  block_number : Option Nat
  «from» : Bytes
  «to» : Option Bytes
  cumulative_gas_used : Nat
  gas_used : Option Nat
  contract_address : Option Bytes
  logs : List EthersLog
  status : Option Nat
  root : Option Bytes
  logs_bloom : Bytes
  transaction_type : Option Nat
  effective_gas_price : Option Nat

/-- `reth_transaction_receipt_to_ethers` from the source. It unwraps
`transaction_hash` and `transaction_index` (panicking when absent), converts
each contained log via `Log::into_ethers` (the `todo!()`-carrying code
above), maps `status_code` and `state_root` independently into `status` and
`root` with no mutual-exclusivity check, and byte-copies or value-converts
the rest. -/
def reth_transaction_receipt_to_ethers (receipt : TransactionReceipt) :
    Option EthersTransactionReceipt := do
  let transaction_hash ← receipt.transaction_hash
  let transaction_index ← receipt.transaction_index
  let logs ← receipt.logs.mapM reth_rpc_log_to_ethers
  some { transaction_hash := transaction_hash,
         transaction_index := u256_le_into_u64 transaction_index,
         block_hash := receipt.block_hash,
         block_number := receipt.block_number.map u256_le_into_u64,
         «from» := receipt.«from»,
         «to» := receipt.«to»,
         cumulative_gas_used := receipt.cumulative_gas_used,
         gas_used := receipt.gas_used,
         contract_address := receipt.contract_address,
         logs := logs,
         status := receipt.status_code.map fun num => num,
         root := receipt.state_root,
         logs_bloom := receipt.logs_bloom,
         transaction_type := some receipt.transaction_type,
         effective_gas_price := some receipt.effective_gas_price }

/-- A floating-point sample, kept as its uninterpreted bit pattern: the
unimplemented fee-history converter never inspects it. -/
structure Float64 where
  bits : Nat

/-- A storage-proof entry of the reth `EIP1186AccountProofResponse`. -/
structure StorageProof where
  key : Bytes
  value : Nat
  proof : List Bytes

/-- The reth `EIP1186AccountProofResponse`: account fields plus storage
proof entries. -/
structure EIP1186AccountProofResponse where
  address : Bytes
  balance : Nat
  code_hash : Bytes
  nonce : Nat
  storage_hash : Bytes
  account_proof : List Bytes
  storage_proof : List StorageProof

/-- The ethers `EIP1186ProofResponse`, same shape on the ethers types. -/
structure EthersEIP1186ProofResponse where
  address : Bytes
  balance : Nat
  code_hash : Bytes
  nonce : Nat
  storage_hash : Bytes
  account_proof : List Bytes
  storage_proof : List StorageProof

/-- The reth `FeeHistory` (field `gas_used_fraction` models the source's
per-block gas-used-to-limit quotient list, a `Vec` of 64-bit floats). -/
structure FeeHistory where
  base_fee_per_gas : List Nat
  gas_used_fraction : List Float64
  oldest_block : Nat
  reward : Option (List (List Nat))

/-- The ethers `FeeHistory`, same shape on the ethers types. -/
structure EthersFeeHistory where
  base_fee_per_gas : List Nat
  gas_used_fraction : List Float64
  oldest_block : Nat
  reward : List (List Nat)

/-- `reth_proof_to_ethers` from the source: the declared signature carries an
empty body `{}` — no value of the declared return type is produced for any
input; modelled as no result. -/
def reth_proof_to_ethers (proof : EIP1186AccountProofResponse) :
    Option EthersEIP1186ProofResponse := none

/-- `reth_fee_history_to_ethers` from the source: the declared signature
carries an empty body `{}` — no value of the declared return type is
produced for any input; modelled as no result. -/
def reth_fee_history_to_ethers (fee_history : FeeHistory) :
    Option EthersFeeHistory := none

/-- A transaction record carrying no signature and no access list. -/
def unsignedTx : Transaction :=
  { hash := List.replicate 32 17,
    nonce := 0,
    block_hash := none,
    block_number := none,
    transaction_index := none,
    «from» := List.replicate 20 2,
    «to» := none,
    value := 0,
    gas_price := none,
    gas := 21000,
    input := [],
    signature := none,
    transaction_type := none,
    access_list := none,
    max_priority_fee_per_gas := none,
    max_fee_per_gas := none,
    chain_id := none }

/-- The same record carrying a signature. -/
def signedTx : Transaction :=
  { unsignedTx with signature := some { r := 7, s := 8, v := 27 } }

/-- A sample access list with one entry and two ordered storage keys. -/
def sampleAccessItems : List AccessListItem :=
  [{ address := List.replicate 20 10,
     storage_keys := [List.replicate 32 1, List.replicate 32 2] }]

/-- A receipt carrying both a status code and a state root, with the
unconditionally-unwrapped fields present and no logs. -/
def ambiguousReceipt : TransactionReceipt :=
  { transaction_hash := some (List.replicate 32 170),
    transaction_index := some 0,
    block_hash := none,
    block_number := none,
    «from» := List.replicate 20 1,
    «to» := none,
    cumulative_gas_used := 0,
    gas_used := none,
    contract_address := none,
    logs := [],
    status_code := some 1,
    state_root := some (List.replicate 32 187),
    logs_bloom := List.replicate 256 0,
    transaction_type := 0,
    effective_gas_price := 0 }

/-- C1: the claim says the four-position topic array is built by a
bounds-checked construction that never fails out of bounds. In the source,
`convert_topics` performs the indexed write `new_topics[i] = ...` into the
zero-length `Vec::new()`, so the very first iteration indexes out of bounds
and panics: for every four-position topics array the conversion produces no
result. -/
theorem convert_topics_always_out_of_bounds (t0 t1 t2 t3 : Option EthersTopic) :
    convert_topics [t0, t1, t2, t3] = none := rfl

/-- C2: the claim says a block-range filter converts to a success value or a
conversion error even when a bound is absent, never terminating the process.
In the source, `ethers_filter_to_reth_filter` calls `.unwrap()` on each
optional bound, so a range with an absent bound (either side, or both)
panics and the conversion produces no result. -/
theorem filter_range_absent_bound_panics (address : Option (ValueOrArray Bytes))
    (topics : List (Option EthersTopic)) (b : EthersBlockNumber) :
    ethers_filter_to_reth_filter ⟨.Range none none, address, topics⟩ = none ∧
    ethers_filter_to_reth_filter ⟨.Range (some b) none, address, topics⟩ = none ∧
    ethers_filter_to_reth_filter ⟨.Range none (some b), address, topics⟩ = none :=
  ⟨rfl, rfl, rfl⟩

/-- C3: the claim says every internal log (in particular one with
`removed = true` and zero topics) converts to an external log preserving the
removed flag and topic list, never terminating the process. In the source,
`reth_rpc_log_to_ethers` (and the identical `Log::into_ethers`) evaluates
`todo!()` for `transaction_log_index` and `log_type`, so the conversion
panics on every input and produces no result. -/
theorem log_conversion_always_panics (log : Log) :
    reth_rpc_log_to_ethers log = none := rfl

/-- C4: the claim says a receipt with both status and state root set is
rejected with `AmbiguousReceiptState`. In the source,
`reth_transaction_receipt_to_ethers` maps `status_code` and `state_root`
independently with no mutual-exclusivity check: on a receipt with
`status_code = Some(1)` and `state_root = Some(0xbb..bb)` it succeeds and
returns a receipt carrying both fields. -/
theorem receipt_both_status_and_root_accepted :
    (reth_transaction_receipt_to_ethers ambiguousReceipt).map
        (fun r => (r.status, r.root)) =
      some (some 1, some (List.replicate 32 187)) := rfl

/-- C5: the claim says narrowing a 256-bit quantity that exceeds 64 bits
fails with an `Overflow` error and never terminates the process. In the
source, both narrowing functions go through the uint crate's `as_u64`, whose
overflow check panics: at `0xFFFFFFFFFFFFFFFF1` no error value is produced
(the process terminates), while a fitting value such as 5 narrows to 5. -/
theorem narrow_overflow_panics_not_error :
    convert_Ethers_U256_to_Reth_U64 0xFFFFFFFFFFFFFFFF1 = none ∧
    convert_Reth_U256_to_Ethers_U64 0xFFFFFFFFFFFFFFFF1 = none ∧
    convert_Ethers_U256_to_Reth_U64 5 = some 5 ∧
    convert_Reth_U256_to_Ethers_U64 5 = some 5 := by
  refine ⟨?_, ?_, ?_, ?_⟩ <;> decide

/-- C6: widening a 64-bit quantity to 256 bits always succeeds and preserves
the value, and narrowing the widened value back returns exactly the original
quantity, for every value in the 64-bit range (including the zero and
maximum sentinels). -/
theorem widen_narrow_roundtrip (q : Nat) (h : q < 2 ^ 64) :
    convert_Reth_U64_to_Ethers_U256 q = q ∧
    convert_Ethers_U256_to_Reth_U64 (convert_Reth_U64_to_Ethers_U256 q) = some q := by
  refine ⟨rfl, ?_⟩
  unfold convert_Ethers_U256_to_Reth_U64 convert_Reth_U64_to_Ethers_U256 ethersU256_as_u64
  rw [if_pos h]
  rfl

/-- Witness for C6: the round trip evaluated at the zero and maximum-value
sentinels of the 64-bit range. -/
theorem widen_narrow_roundtrip_witness :
    ((0 : Nat) < 2 ^ 64 ∧
      convert_Ethers_U256_to_Reth_U64 (convert_Reth_U64_to_Ethers_U256 0) = some 0) ∧
    (18446744073709551615 < 2 ^ 64 ∧
      convert_Ethers_U256_to_Reth_U64 (convert_Reth_U64_to_Ethers_U256 18446744073709551615) =
        some 18446744073709551615) :=
  ⟨⟨by decide, (widen_narrow_roundtrip 0 (by decide)).2⟩,
   ⟨by decide, (widen_narrow_roundtrip 18446744073709551615 (by decide)).2⟩⟩

/-- C7: a transaction record with no signature converts with `v`, `r`, `s`
all zero (the documented default — the conversion still succeeds, as
`reth_rpc_transaction_to_ethers` is a total function); a record with a
signature converts `v`, `r`, `s` to the converted signature components. -/
theorem transaction_signature_default (tx : Transaction) :
    (tx.signature = none →
      (reth_rpc_transaction_to_ethers tx).v = 0 ∧
      (reth_rpc_transaction_to_ethers tx).r = 0 ∧
      (reth_rpc_transaction_to_ethers tx).s = 0) ∧
    (∀ sig, tx.signature = some sig →
      (reth_rpc_transaction_to_ethers tx).v = u256_le_into_u64 sig.v ∧
      (reth_rpc_transaction_to_ethers tx).r = sig.r ∧
      (reth_rpc_transaction_to_ethers tx).s = sig.s) := by
  constructor
  · intro h
    simp [reth_rpc_transaction_to_ethers, h]
  · intro sig h
    simp [reth_rpc_transaction_to_ethers, h]

/-- Witness for C7: the signature default and the signed case, evaluated on
the concrete unsigned and signed sample transactions. -/
theorem transaction_signature_default_witness :
    ((reth_rpc_transaction_to_ethers unsignedTx).v = 0 ∧
     (reth_rpc_transaction_to_ethers unsignedTx).r = 0 ∧
     (reth_rpc_transaction_to_ethers unsignedTx).s = 0) ∧
    ((reth_rpc_transaction_to_ethers signedTx).v = u256_le_into_u64 27 ∧
     (reth_rpc_transaction_to_ethers signedTx).r = 7 ∧
     (reth_rpc_transaction_to_ethers signedTx).s = 8) :=
  ⟨(transaction_signature_default unsignedTx).1 rfl,
   (transaction_signature_default signedTx).2 { r := 7, s := 8, v := 27 } rfl⟩

/-- C8: a transaction with an absent access list converts to an external
transaction whose access list is present and empty (`Some([])`, never an
absent field); a present access list converts entry by entry, preserving
each entry's address and ordered storage keys. -/
theorem access_list_absent_becomes_empty (tx : Transaction)
    (items : List AccessListItem) :
    (tx.access_list = none →
      (reth_rpc_transaction_to_ethers tx).access_list = some []) ∧
    opt_reth_access_list_to_ethers_access_list (some items) =
      items.map (fun item =>
        { address := item.address, storage_keys := item.storage_keys }) := by
  constructor
  · intro h
    simp [reth_rpc_transaction_to_ethers, opt_reth_access_list_to_ethers_access_list, h]
  · simp [opt_reth_access_list_to_ethers_access_list]

/-- Witness for C8: the absent access list of the unsigned sample
transaction converts to the explicit empty list, and the one-entry sample
list is preserved entry by entry. -/
theorem access_list_absent_becomes_empty_witness :
    (reth_rpc_transaction_to_ethers unsignedTx).access_list = some [] ∧
    opt_reth_access_list_to_ethers_access_list (some sampleAccessItems) =
      sampleAccessItems.map (fun item =>
        { address := item.address, storage_keys := item.storage_keys }) :=
  ⟨(access_list_absent_becomes_empty unsignedTx []).1 rfl,
   (access_list_absent_becomes_empty unsignedTx sampleAccessItems).2⟩

/-- C9: the claim says account-proof and fee-history conversion return, for
every input, a field-for-field converted output. In the source both function
bodies are empty (unimplemented): no input produces any output value. -/
theorem proof_and_fee_history_unimplemented (p : EIP1186AccountProofResponse)
    (fh : FeeHistory) :
    reth_proof_to_ethers p = none ∧ reth_fee_history_to_ethers fh = none :=
  ⟨rfl, rfl⟩

/-- C10: `ethers_block_id_to_reth_block_id` returns a value exactly on hash
and concrete-number identifiers, preserving the hash bytes and the numeric
value; every named tag in the number position is outside its domain (the
`as_number().unwrap()` produces no result there, mapping the tag to neither
a tag nor a number). -/
theorem block_id_hash_and_number_only (h : Bytes) (n : Nat) :
    ethers_block_id_to_reth_block_id (.Hash h) =
      some (.Hash { block_hash := h, require_canonical := none }) ∧
    ethers_block_id_to_reth_block_id (.Number (.Number n)) =
      some (.Number (.Number n)) ∧
    ethers_block_id_to_reth_block_id (.Number .Latest) = none ∧
    ethers_block_id_to_reth_block_id (.Number .Earliest) = none ∧
    ethers_block_id_to_reth_block_id (.Number .Pending) = none ∧
    ethers_block_id_to_reth_block_id (.Number .Safe) = none ∧
    ethers_block_id_to_reth_block_id (.Number .Finalized) = none :=
  ⟨rfl, rfl, rfl, rfl, rfl, rfl, rfl⟩

end EthersReth
